import Mathlib

/-!
Shallow embedding of `delay.c` (EFM32 delay/sleep module, version 3.4).

The C file selects a back-end at compile time (`SYSTICKDELAY`) and an
oscillator (`ULFRCO` vs `LFXO`); we carry that build configuration as an
explicit record.  All machine integers are modelled as `Nat` with explicit
reduction modulo `2^32` where C unsigned arithmetic wraps.  The MCU
peripheral registers touched by the code (CMU clock gates, RTC compare and
counter registers, SysTick control bits, NVIC enable) are explicit fields of
the state record.  The low-power wait (`EMU_EnterEM2`/`EMU_EnterEM3`) is
modelled by an event parameter saying how the wait ended: by the programmed
RTC compare match (which runs `RTC_IRQHandler`) or by an external wake
source (which does not).  The busy-wait loop of the SysTick back-end is
modelled with explicit fuel.
-/

/-- Build-time configuration: `SYSTICKDELAY == 1` selects the SysTick
back-end, `ULFRCO == 1` selects the ultra-low-frequency oscillator
(otherwise the LFXO crystal). -/
structure Config where
  systickdelay : Bool
  ulfrco : Bool
deriving DecidableEq

/-- `#define ULFRCOFREQ 1000` -/
def ULFRCOFREQ : Nat := 1000

/-- `#define LFXOFREQ 32768` -/
def LFXOFREQ : Nat := 32768

/-- Modulus of C `uint32_t` arithmetic. -/
def UINT32_MOD : Nat := 4294967296

/-- Modulus of the 24-bit RTC counter register. -/
def RTC_CNT_MOD : Nat := 16777216

/-- Program state: the file's global variables together with the MCU
registers the code reads and writes, plus `emWaits`, an observation counter
incremented each time a low-power wait is actually entered. -/
structure DelayState where
  RTC_sleep_wakeup : Bool
  sleeping : Bool
  RTC_initialized : Bool
  SysTick_initialized : Bool
  msTicks : Nat
  sysTickInt : Bool
  sysTickEnable : Bool
  lfxoEnabled : Bool
  hfleClockEnabled : Bool
  lfaSelUlfrco : Bool
  rtcClockEnabled : Bool
  rtcIntComp0Enabled : Bool
  rtcIfComp0 : Bool
  nvicRTCEnabled : Bool
  rtcComp0 : Nat
  rtcCounterEnabled : Bool
  rtcCounter : Nat
  emWaits : Nat
deriving DecidableEq

/-- Reset state: all globals false/zero, all modelled peripherals off. -/
def initialState : DelayState where
  RTC_sleep_wakeup := false
  sleeping := false
  RTC_initialized := false
  SysTick_initialized := false
  msTicks := 0
  sysTickInt := false
  sysTickEnable := false
  lfxoEnabled := false
  hfleClockEnabled := false
  lfaSelUlfrco := false
  rtcClockEnabled := false
  rtcIntComp0Enabled := false
  rtcIfComp0 := false
  nvicRTCEnabled := false
  rtcComp0 := 0
  rtcCounterEnabled := false
  rtcCounter := 0
  emWaits := 0

/-- Tick frequency of the selected oscillator (1000 Hz ULFRCO, 32768 Hz LFXO). -/
def oscFreq (cfg : Config) : Nat :=
  if cfg.ulfrco then ULFRCOFREQ else LFXOFREQ

/-- `static void initRTC (void)`: enables the oscillator route and clock
gates, enables and clears the compare interrupt, configures the RTC with the
counter left stopped (`rtc.enable = false`) and sets `RTC_initialized`. -/
def initRTC (cfg : Config) (s : DelayState) : DelayState :=
  if cfg.ulfrco then
    { s with hfleClockEnabled := true
             lfaSelUlfrco := true
             rtcClockEnabled := true
             rtcIntComp0Enabled := true
             rtcIfComp0 := false
             nvicRTCEnabled := true
             rtcCounterEnabled := false
             RTC_initialized := true }
  else
    { s with lfxoEnabled := true
             hfleClockEnabled := true
             lfaSelUlfrco := false
             rtcClockEnabled := true
             rtcIntComp0Enabled := true
             rtcIfComp0 := false
             nvicRTCEnabled := true
             rtcCounterEnabled := false
             RTC_initialized := true }

/-- `void RTC_IRQHandler (void)`: stops the counter, clears the interrupt
source, and sets the wake flag exactly when `sleeping` is true. -/
def RTC_IRQHandler (s : DelayState) : DelayState :=
  let s1 := { s with rtcCounterEnabled := false }
  let s2 := { s1 with rtcIfComp0 := false }
  if s2.sleeping then { s2 with RTC_sleep_wakeup := true } else s2

/-- `void SysTick_Handler (void)`: `msTicks++` in uint32 arithmetic. -/
def SysTick_Handler (s : DelayState) : DelayState :=
  { s with msTicks := (s.msTicks + 1) % UINT32_MOD }

/-- How a low-power wait ends: the programmed compare match (the RTC IRQ
handler runs, with the counter having reached the compare value), or an
external wake signal after `k` elapsed ticks (the RTC handler does not run). -/
inductive WakeEvent where
  | compareMatch : WakeEvent
  | external : Nat → WakeEvent
deriving DecidableEq

/-- Model of `EMU_EnterEM2(true)` / `EMU_EnterEM3(true)`: the CPU suspends
until an interrupt.  On a compare match the counter has reached the compare
value, the compare interrupt flag is raised and `RTC_IRQHandler` runs; on an
external wake the counter has advanced by `k` ticks (24-bit wrap) and the
RTC handler does not run.  `emWaits` records that a wait was entered. -/
def EMU_EnterEM (ev : WakeEvent) (s : DelayState) : DelayState :=
  let s1 := { s with emWaits := s.emWaits + 1 }
  match ev with
  | WakeEvent.compareMatch =>
      RTC_IRQHandler { s1 with rtcCounter := s1.rtcComp0, rtcIfComp0 := true }
  | WakeEvent.external k =>
      if s1.rtcCounterEnabled then
        { s1 with rtcCounter := (s1.rtcCounter + k) % RTC_CNT_MOD }
      else s1

/-- `(msTicks - curTicks)` in uint32 arithmetic (wraparound subtraction). -/
def wrapSub32 (a b : Nat) : Nat :=
  (a % UINT32_MOD + UINT32_MOD - b % UINT32_MOD) % UINT32_MOD

/-- The busy-wait loop `while ((msTicks - curTicks) < msDelay);` of the
SysTick back-end.  Each iteration in which the delta has not yet been
reached corresponds to one `SysTick_Handler` tick interrupt; the second
component counts how many tick interrupts elapsed before the loop exited.
The loop is given explicit fuel to stay total. -/
def busyPoll (fuel : Nat) (curTicks msDelay : Nat) (s : DelayState) :
    DelayState × Nat :=
  match fuel with
  | 0 => (s, 0)
  | fuel + 1 =>
      if wrapSub32 s.msTicks curTicks < msDelay then
        ((busyPoll fuel curTicks msDelay (SysTick_Handler s)).1,
         (busyPoll fuel curTicks msDelay (SysTick_Handler s)).2 + 1)
      else (s, 0)

/-- Range check of the RTC delay path.  The source compares the C `double`
products `1.000 * msDelay` (ULFRCO) and `32.768 * msDelay` (LFXO) against
`0x00ffffff`; for every uint32 `msDelay` those double computations agree
with the exact rational products modelled here (`1.000` is exact, and for
`32.768 = 4096/125` the exact product is never closer than 0.2 to the
threshold while the rounding error is below 3e-6). -/
def delayInRange (cfg : Config) (msDelay : Nat) : Prop :=
  if cfg.ulfrco then msDelay ≤ 0x00ffffff
  else 4096 * msDelay ≤ 125 * 0x00ffffff

instance (cfg : Config) (msDelay : Nat) : Decidable (delayInRange cfg msDelay) := by
  unfold delayInRange
  exact inferInstance

/-- The compare value programmed by the RTC delay path: truncation of the
double product to uint32 (`msDelay` for ULFRCO, `⌊32.768 * msDelay⌋` for
LFXO, both exact for uint32 inputs). -/
def delayCompareVal (cfg : Config) (msDelay : Nat) : Nat :=
  if cfg.ulfrco then msDelay else 4096 * msDelay / 125

/-- The tick conversion of the sleep path: `ULFRCOFREQ * sSleep` resp.
`LFXOFREQ * sSleep`, computed — as in the source — in uint32 arithmetic,
hence reduced modulo `2^32`. -/
def sleepTicks (cfg : Config) (sSleep : Nat) : Nat :=
  oscFreq cfg * sSleep % UINT32_MOD

/-- The SysTick branch of `delay` up to the busy-wait loop: first call runs
`SysTick_Config` (which starts the SysTick counter and interrupt) and sets
the readiness flag; later calls with a nonzero delay re-enable the SysTick
interrupt and counter bits. -/
def delaySysTickSetup (msDelay : Nat) (s : DelayState) : DelayState :=
  if !s.SysTick_initialized then
    { s with sysTickInt := true, sysTickEnable := true, SysTick_initialized := true }
  else if msDelay > 0 then
    { s with sysTickInt := true, sysTickEnable := true }
  else s

/-- The initialization/clock-enable prologue shared by the RTC branch of
`delay` and by `sleep`: initialize the RTC on first use, otherwise (for a
nonzero duration) turn the RTC clock gate on. -/
def rtcPrologue (cfg : Config) (duration : Nat) (s : DelayState) : DelayState :=
  if !s.RTC_initialized then initRTC cfg s
  else if duration > 0 then { s with rtcClockEnabled := true } else s

/-- `void delay (uint32_t msDelay)`.  `ev` says how an entered low-power
wait ends (RTC back-end); `fuel` bounds the busy-wait loop (SysTick
back-end). -/
def delay (cfg : Config) (ev : WakeEvent) (fuel : Nat) (msDelay : Nat)
    (s : DelayState) : DelayState :=
  if cfg.systickdelay then
    let s1 := delaySysTickSetup msDelay s
    if msDelay > 0 then
      let s2 := (busyPoll fuel s1.msTicks msDelay s1).1
      { s2 with sysTickInt := false, sysTickEnable := false }
    else s1
  else
    let s1 := rtcPrologue cfg msDelay s
    if msDelay > 0 then
      if delayInRange cfg msDelay then
        let s2 := { s1 with rtcComp0 := delayCompareVal cfg msDelay }
        let s3 := { s2 with rtcCounterEnabled := true }
        let s4 := EMU_EnterEM ev s3
        { s4 with rtcClockEnabled := false }
      else
        { s1 with rtcClockEnabled := false }
    else s1

/-- The state of `sleep` just before `EMU_EnterEM2/3` on the in-range path:
compare register programmed, `sleeping` set to true, counter started. -/
def sleepPreWait (cfg : Config) (sSleep : Nat) (s : DelayState) : DelayState :=
  let s1 := rtcPrologue cfg sSleep s
  let s2 := { s1 with rtcComp0 := sleepTicks cfg sSleep }
  let s3 := { s2 with sleeping := true }
  { s3 with rtcCounterEnabled := true }

/-- `void sleep (uint32_t sSleep)`.  `ev` says how the low-power wait ends. -/
def sleep (cfg : Config) (ev : WakeEvent) (sSleep : Nat)
    (s : DelayState) : DelayState :=
  let s1 := rtcPrologue cfg sSleep s
  if sSleep > 0 then
    if sleepTicks cfg sSleep ≤ 0x00ffffff then
      let s4 := EMU_EnterEM ev (sleepPreWait cfg sSleep s)
      let s5 := { s4 with sleeping := false }
      { s5 with rtcClockEnabled := false }
    else
      { s1 with rtcClockEnabled := false }
  else s1

/-- `bool RTC_checkWakeup (void)`: returns `RTC_sleep_wakeup`, no state
change. -/
def RTC_checkWakeup (s : DelayState) : Bool × DelayState :=
  (s.RTC_sleep_wakeup, s)

/-- `void RTC_clearWakeup (void)`: clears `RTC_sleep_wakeup`. -/
def RTC_clearWakeup (s : DelayState) : DelayState :=
  { s with RTC_sleep_wakeup := false }

/-- `uint32_t RTC_getPassedSleeptime (void)`: reads the counter, disables
it, and returns the tick count divided by the oscillator frequency. -/
def RTC_getPassedSleeptime (cfg : Config) (s : DelayState) : Nat × DelayState :=
  let sSleep := s.rtcCounter
  let s1 := { s with rtcCounterEnabled := false }
  (sSleep / oscFreq cfg, s1)

/-- RTC back-end with the ultra-low-frequency oscillator. -/
def cfgULFRCO : Config := ⟨false, true⟩

/-- RTC back-end with the LFXO crystal. -/
def cfgLFXO : Config := ⟨false, false⟩

/-- SysTick back-end. -/
def cfgSysTick : Config := ⟨true, false⟩

/-- A state in which the RTC has already been lazily initialized. -/
def rtcReadyState : DelayState :=
  { initialState with RTC_initialized := true }

/-! ## Helper lemmas -/

/-- Wraparound subtraction recovers the elapsed delta `j` when the stored
tick value is `(cur + j) % 2^32`. -/
theorem wrapSub32_delta (cur j : Nat) (h1 : cur < UINT32_MOD)
    (h2 : j < UINT32_MOD) :
    wrapSub32 ((cur + j) % UINT32_MOD) cur = j := by
  simp only [wrapSub32, UINT32_MOD] at *
  omega

/-- Characterization of the busy-wait loop: starting `j` elapsed ticks after
the recorded value `cur`, with enough fuel, the loop runs the tick handler
exactly `d - j` more times and exits with `msTicks = (cur + d) % 2^32`. -/
theorem busyPoll_run (d : Nat) (hd : d < UINT32_MOD) :
    ∀ (fuel j cur : Nat) (s : DelayState), cur < UINT32_MOD → j ≤ d →
      d - j ≤ fuel → s.msTicks = (cur + j) % UINT32_MOD →
      busyPoll fuel cur d s
        = ({ s with msTicks := (cur + d) % UINT32_MOD }, d - j) := by
  intro fuel
  induction fuel with
  | zero =>
      intro j cur s hcur hj hfuel hms
      have hjd : j = d := by omega
      have hstate : ({ s with msTicks := (cur + d) % UINT32_MOD } : DelayState) = s := by
        rw [← hjd, ← hms]
      have hsub : d - j = 0 := by omega
      simp only [busyPoll, hstate, hsub]
  | succ fuel ih =>
      intro j cur s hcur hj hfuel hms
      by_cases hjd : j = d
      · have hcond : ¬ wrapSub32 s.msTicks cur < d := by
          rw [hms, hjd, wrapSub32_delta cur d hcur hd]
          exact lt_irrefl d
        have hstate : ({ s with msTicks := (cur + d) % UINT32_MOD } : DelayState) = s := by
          rw [← hjd, ← hms]
        have hsub : d - j = 0 := by omega
        simp only [busyPoll]
        rw [if_neg hcond, hstate, hsub]
      · have hjlt : j < d := lt_of_le_of_ne hj hjd
        have hcond : wrapSub32 s.msTicks cur < d := by
          rw [hms, wrapSub32_delta cur j hcur (lt_trans hjlt hd)]
          exact hjlt
        have hms2 : (SysTick_Handler s).msTicks = (cur + (j + 1)) % UINT32_MOD := by
          simp only [SysTick_Handler, hms, UINT32_MOD]
          omega
        have hrec := ih (j + 1) cur (SysTick_Handler s) hcur hjlt (by omega) hms2
        simp only [busyPoll]
        rw [if_pos hcond, hrec]
        simp only [Prod.mk.injEq]
        constructor
        · rfl
        · show d - (j + 1) + 1 = d - j
          omega

/-- The busy-wait loop changes nothing but `msTicks`. -/
theorem busyPoll_preserves (fuel c d : Nat) (s : DelayState) :
    ((busyPoll fuel c d s).1).RTC_sleep_wakeup = s.RTC_sleep_wakeup
    ∧ ((busyPoll fuel c d s).1).sleeping = s.sleeping
    ∧ ((busyPoll fuel c d s).1).rtcComp0 = s.rtcComp0
    ∧ ((busyPoll fuel c d s).1).rtcCounterEnabled = s.rtcCounterEnabled
    ∧ ((busyPoll fuel c d s).1).rtcClockEnabled = s.rtcClockEnabled
    ∧ ((busyPoll fuel c d s).1).emWaits = s.emWaits
    ∧ ((busyPoll fuel c d s).1).RTC_initialized = s.RTC_initialized
    ∧ ((busyPoll fuel c d s).1).SysTick_initialized = s.SysTick_initialized := by
  induction fuel generalizing s with
  | zero => simp [busyPoll]
  | succ fuel ih =>
      by_cases hcond : wrapSub32 s.msTicks c < d
      · simp only [busyPoll, hcond, if_true]
        exact ih (SysTick_Handler s)
      · simp [busyPoll, hcond]

/-- Fields of the state that the SysTick setup section never touches. -/
theorem delaySysTickSetup_frame (d : Nat) (s : DelayState) :
    (delaySysTickSetup d s).sleeping = s.sleeping
    ∧ (delaySysTickSetup d s).RTC_sleep_wakeup = s.RTC_sleep_wakeup
    ∧ (delaySysTickSetup d s).msTicks = s.msTicks
    ∧ (delaySysTickSetup d s).rtcComp0 = s.rtcComp0
    ∧ (delaySysTickSetup d s).rtcCounterEnabled = s.rtcCounterEnabled
    ∧ (delaySysTickSetup d s).rtcClockEnabled = s.rtcClockEnabled
    ∧ (delaySysTickSetup d s).emWaits = s.emWaits := by
  unfold delaySysTickSetup
  split
  · simp
  · split <;> simp

/-- Fields of the state that the RTC prologue (lazy initialization /
clock-gate enable) never touches, and the counter-enable bit it can only
leave alone or clear. -/
theorem rtcPrologue_frame (cfg : Config) (n : Nat) (s : DelayState) :
    (rtcPrologue cfg n s).sleeping = s.sleeping
    ∧ (rtcPrologue cfg n s).RTC_sleep_wakeup = s.RTC_sleep_wakeup
    ∧ (rtcPrologue cfg n s).rtcComp0 = s.rtcComp0
    ∧ (rtcPrologue cfg n s).msTicks = s.msTicks
    ∧ (rtcPrologue cfg n s).emWaits = s.emWaits
    ∧ (s.rtcCounterEnabled = false → (rtcPrologue cfg n s).rtcCounterEnabled = false) := by
  unfold rtcPrologue initRTC
  split
  · split <;> simp
  · split <;> simp

/-- `delay` never writes the `sleeping` flag, and when `sleeping` is false
at the call it also leaves the wake flag unchanged (the handler firing
during the wait sees `sleeping = false`). -/
theorem delay_sleeping_wake_frame (cfg : Config) (ev : WakeEvent) (fuel d : Nat)
    (s : DelayState) (hsl : s.sleeping = false) :
    (delay cfg ev fuel d s).sleeping = s.sleeping
    ∧ (delay cfg ev fuel d s).RTC_sleep_wakeup = s.RTC_sleep_wakeup := by
  have hpro := rtcPrologue_frame cfg d s
  have hsetup := delaySysTickSetup_frame d s
  have hpoll := busyPoll_preserves fuel (delaySysTickSetup d s).msTicks d
    (delaySysTickSetup d s)
  by_cases hc : cfg.systickdelay = true
  · by_cases hdpos : d > 0
    · simp only [delay, hc, if_true, hdpos]
      exact ⟨by rw [hpoll.2.1, hsetup.1], by rw [hpoll.1, hsetup.2.1]⟩
    · simp only [delay, hc, if_true, hdpos, if_false]
      exact ⟨hsetup.1, hsetup.2.1⟩
  · replace hc : cfg.systickdelay = false := by simpa using hc
    have hsl2 : (rtcPrologue cfg d s).sleeping = false := by rw [hpro.1, hsl]
    by_cases hdpos : d > 0
    · by_cases hrange : delayInRange cfg d
      · cases ev with
        | compareMatch =>
            simp [delay, hc, hdpos, hrange, EMU_EnterEM, RTC_IRQHandler,
              hsl2, hpro.1, hpro.2.1, hsl]
        | external k =>
            simp [delay, hc, hdpos, hrange, EMU_EnterEM,
              hsl2, hpro.1, hpro.2.1, hsl]
      · simp [delay, hc, hdpos, hrange, hpro.1, hpro.2.1, hsl]
    · simp only [delay, hc, Bool.false_eq_true, if_false, hdpos]
      exact ⟨hpro.1, hpro.2.1⟩

/-- C9: Executing `delay`, for every duration, back-end configuration and
wait outcome, leaves the `sleeping` flag and the wake flag unchanged,
provided — as the program guarantees outside the sleep window — that
`sleeping` is false at the call: `delay` never writes either variable, and
because `sleeping` is false throughout the delay the compare-match handler
firing during the wait does not set the wake flag, so any wake-flag value
left by an earlier sleep is preserved across delay calls. -/
theorem C9_delay_frame (cfg : Config) (ev : WakeEvent) (fuel d : Nat)
    (s : DelayState) (hsl : s.sleeping = false) :
    (delay cfg ev fuel d s).sleeping = s.sleeping
    ∧ (delay cfg ev fuel d s).RTC_sleep_wakeup = s.RTC_sleep_wakeup :=
  delay_sleeping_wake_frame cfg ev fuel d s hsl

/-- C9 witness at a concrete input. -/
theorem C9_delay_frame_witness :
    rtcReadyState.sleeping = false
    ∧ (delay cfgULFRCO WakeEvent.compareMatch 0 7 rtcReadyState).sleeping
        = rtcReadyState.sleeping
    ∧ (delay cfgULFRCO WakeEvent.compareMatch 0 7 rtcReadyState).RTC_sleep_wakeup
        = rtcReadyState.RTC_sleep_wakeup := by
  refine ⟨by decide, ?_⟩
  have h := C9_delay_frame cfgULFRCO WakeEvent.compareMatch 0 7 rtcReadyState (by decide)
  exact ⟨by rw [h.1], h.2⟩

/-- Full characterization of the compare-match interrupt handler. -/
theorem RTC_IRQHandler_spec (t : DelayState) :
    (RTC_IRQHandler t).rtcCounterEnabled = false
    ∧ (RTC_IRQHandler t).rtcIfComp0 = false
    ∧ (RTC_IRQHandler t).RTC_sleep_wakeup = (t.sleeping || t.RTC_sleep_wakeup)
    ∧ (RTC_IRQHandler t).sleeping = t.sleeping
    ∧ (RTC_IRQHandler t).rtcComp0 = t.rtcComp0
    ∧ (RTC_IRQHandler t).rtcClockEnabled = t.rtcClockEnabled
    ∧ (RTC_IRQHandler t).rtcCounter = t.rtcCounter
    ∧ (RTC_IRQHandler t).emWaits = t.emWaits
    ∧ (RTC_IRQHandler t).RTC_initialized = t.RTC_initialized := by
  unfold RTC_IRQHandler
  by_cases h : t.sleeping = true <;> simp [h]

/-- A low-power wait ending in a compare match is the interrupt handler run
on the waiting state with the counter at the compare value. -/
theorem EMU_EnterEM_compareMatch (t : DelayState) :
    EMU_EnterEM WakeEvent.compareMatch t
      = RTC_IRQHandler
          { t with emWaits := t.emWaits + 1, rtcCounter := t.rtcComp0,
                   rtcIfComp0 := true } := rfl

/-- C10: `sleep` sets the `sleeping` flag only after the duration range
check has passed: for every out-of-range duration (tick conversion above
`0x00ffffff`), `sleep` returns with `sleeping`, the wake flag and the
compare register exactly as they were before the call. -/
theorem C10_sleep_error_frame (cfg : Config) (ev : WakeEvent) (n : Nat)
    (s : DelayState) (h : 0x00ffffff < sleepTicks cfg n) :
    (sleep cfg ev n s).sleeping = s.sleeping
    ∧ (sleep cfg ev n s).RTC_sleep_wakeup = s.RTC_sleep_wakeup
    ∧ (sleep cfg ev n s).rtcComp0 = s.rtcComp0 := by
  have hpro := rtcPrologue_frame cfg n s
  have hn : n > 0 := by
    rcases Nat.eq_zero_or_pos n with h0 | h1
    · subst h0
      simp [sleepTicks] at h
    · exact h1
  have hnot : ¬ sleepTicks cfg n ≤ 0x00ffffff := by omega
  simp [sleep, hn, hnot, hpro.1, hpro.2.1, hpro.2.2.1]

/-- C10 witness at a concrete input. -/
theorem C10_sleep_error_frame_witness :
    0x00ffffff < sleepTicks cfgULFRCO 16778
    ∧ (sleep cfgULFRCO WakeEvent.compareMatch 16778 rtcReadyState).sleeping
        = rtcReadyState.sleeping
    ∧ (sleep cfgULFRCO WakeEvent.compareMatch 16778 rtcReadyState).rtcComp0
        = rtcReadyState.rtcComp0 := by
  refine ⟨by decide, ?_, ?_⟩
  · exact (C10_sleep_error_frame cfgULFRCO WakeEvent.compareMatch 16778
      rtcReadyState (by decide)).1
  · exact (C10_sleep_error_frame cfgULFRCO WakeEvent.compareMatch 16778
      rtcReadyState (by decide)).2.2

/-- C2: For every duration whose tick conversion exceeds the hardware field
maximum `0x00ffffff`, both `delay` and `sleep` (RTC back-end) fail: the RTC
clock gate ends disabled, the compare register is not written, the counter
is not enabled, and no low-power wait is entered; the call simply returns
(both operations are `void`, so no error code exists to return). -/
theorem C2_out_of_range (cfg : Config) (ev : WakeEvent) (fuel d n : Nat)
    (s : DelayState)
    (hc : cfg.systickdelay = false)
    (hcnt : s.rtcCounterEnabled = false)
    (hd : ¬ delayInRange cfg d)
    (hn : 0x00ffffff < sleepTicks cfg n) :
    ((delay cfg ev fuel d s).rtcClockEnabled = false
      ∧ (delay cfg ev fuel d s).rtcComp0 = s.rtcComp0
      ∧ (delay cfg ev fuel d s).rtcCounterEnabled = false
      ∧ (delay cfg ev fuel d s).emWaits = s.emWaits)
    ∧ ((sleep cfg ev n s).rtcClockEnabled = false
      ∧ (sleep cfg ev n s).rtcComp0 = s.rtcComp0
      ∧ (sleep cfg ev n s).rtcCounterEnabled = false
      ∧ (sleep cfg ev n s).emWaits = s.emWaits) := by
  have hprod := rtcPrologue_frame cfg d s
  have hpron := rtcPrologue_frame cfg n s
  have hdpos : d > 0 := by
    rcases Nat.eq_zero_or_pos d with h0 | h1
    · subst h0
      exact absurd (by unfold delayInRange; split <;> simp) hd
    · exact h1
  have hnpos : n > 0 := by
    rcases Nat.eq_zero_or_pos n with h0 | h1
    · subst h0
      simp [sleepTicks] at hn
    · exact h1
  have hnnot : ¬ sleepTicks cfg n ≤ 0x00ffffff := by omega
  constructor
  · simp [delay, hc, hdpos, hd, hprod.2.2.1, hprod.2.2.2.2.1,
      hprod.2.2.2.2.2 hcnt]
  · simp [sleep, hnpos, hnnot, hpron.2.2.1, hpron.2.2.2.2.1,
      hpron.2.2.2.2.2 hcnt]

/-- C2 witness at concrete inputs (ULFRCO: `delay(16777216)` and
`sleep(16778)` are both out of range). -/
theorem C2_out_of_range_witness :
    cfgULFRCO.systickdelay = false
    ∧ rtcReadyState.rtcCounterEnabled = false
    ∧ ¬ delayInRange cfgULFRCO 16777216
    ∧ 0x00ffffff < sleepTicks cfgULFRCO 16778
    ∧ (delay cfgULFRCO WakeEvent.compareMatch 0 16777216 rtcReadyState).rtcClockEnabled = false
    ∧ (sleep cfgULFRCO WakeEvent.compareMatch 16778 rtcReadyState).rtcClockEnabled = false := by
  refine ⟨by decide, by decide, by decide, by decide, ?_, ?_⟩
  · exact (C2_out_of_range cfgULFRCO WakeEvent.compareMatch 0 16777216 16778
      rtcReadyState (by decide) (by decide) (by decide) (by decide)).1.1
  · exact (C2_out_of_range cfgULFRCO WakeEvent.compareMatch 0 16777216 16778
      rtcReadyState (by decide) (by decide) (by decide) (by decide)).2.1

/-- C8 counterexample: two paths violate "the RTC clock gate is left
disabled and the counter stopped whenever no wait is outstanding".
First, an initialization-only `delay(0)` / `sleep(0)` (the first call,
which runs `initRTC`) returns with the RTC peripheral clock gate ENABLED —
`initRTC` turns the clock on and the zero-duration path never turns it
off.  Second, a wait ended by an external wake signal (the compare-match
handler never runs) returns with the counter-enable bit still SET — only
the handler or `RTC_getPassedSleeptime` ever clears it — even though the
gate is off. -/
theorem C8_counterexample :
    (delay cfgULFRCO WakeEvent.compareMatch 0 0 initialState).rtcClockEnabled = true
    ∧ (sleep cfgULFRCO WakeEvent.compareMatch 0 initialState).rtcClockEnabled = true
    ∧ (delay cfgLFXO WakeEvent.compareMatch 0 0 initialState).rtcClockEnabled = true
    ∧ (delay cfgULFRCO (WakeEvent.external 5) 0 7 rtcReadyState).rtcCounterEnabled = true
    ∧ (sleep cfgULFRCO (WakeEvent.external 5) 3 rtcReadyState).rtcCounterEnabled = true := by
  decide

/-- C8 amended: after every `delay` or `sleep` call with nonzero duration —
from any entry state, on the in-range and the out-of-range path, and for
every wait outcome — the RTC clock gate is left disabled at return.  The
counter is also left stopped whenever a started wait ends by the
programmed compare match, and, on the out-of-range reject path, whenever
it was stopped at entry.  Zero-duration calls from an initialized state
are no-ops, so they preserve a disabled gate and stopped counter.  The two
exceptions the code exhibits to the original claim are: the first,
initialization-only zero-duration call leaves the counter stopped but the
gate enabled; and a wait ended by an external wake (not the compare match)
leaves the counter-enable bit set at return (the gate is off, and the bit
is cleared only later, by `RTC_getPassedSleeptime`). -/
theorem C8_amended (cfg : Config) (ev : WakeEvent) (fuel d n : Nat)
    (s : DelayState)
    (hc : cfg.systickdelay = false) :
    (0 < d → (delay cfg ev fuel d s).rtcClockEnabled = false)
    ∧ (0 < n → (sleep cfg ev n s).rtcClockEnabled = false)
    ∧ (0 < d → delayInRange cfg d →
        (delay cfg WakeEvent.compareMatch fuel d s).rtcCounterEnabled = false)
    ∧ (0 < n → sleepTicks cfg n ≤ 0x00ffffff →
        (sleep cfg WakeEvent.compareMatch n s).rtcCounterEnabled = false)
    ∧ (0 < d → ¬ delayInRange cfg d → s.rtcCounterEnabled = false →
        (delay cfg ev fuel d s).rtcCounterEnabled = false)
    ∧ (0 < n → ¬ sleepTicks cfg n ≤ 0x00ffffff → s.rtcCounterEnabled = false →
        (sleep cfg ev n s).rtcCounterEnabled = false)
    ∧ (s.RTC_initialized = true → s.rtcClockEnabled = false →
        s.rtcCounterEnabled = false →
        (delay cfg ev fuel 0 s).rtcClockEnabled = false
        ∧ (delay cfg ev fuel 0 s).rtcCounterEnabled = false
        ∧ (sleep cfg ev 0 s).rtcClockEnabled = false
        ∧ (sleep cfg ev 0 s).rtcCounterEnabled = false)
    ∧ (s.RTC_initialized = false →
        (delay cfg ev fuel 0 s).rtcClockEnabled = true
        ∧ (delay cfg ev fuel 0 s).rtcCounterEnabled = false
        ∧ (sleep cfg ev 0 s).rtcClockEnabled = true
        ∧ (sleep cfg ev 0 s).rtcCounterEnabled = false) := by
  refine ⟨?_, ?_, ?_, ?_, ?_, ?_, ?_, ?_⟩
  · intro hd
    by_cases hrange : delayInRange cfg d
    · simp [delay, hc, hd, hrange]
    · simp [delay, hc, hd, hrange]
  · intro hn
    by_cases hrange : sleepTicks cfg n ≤ 0x00ffffff
    · simp [sleep, hn, hrange]
    · simp [sleep, hn, hrange]
  · intro hd hrange
    simp only [delay, hc, Bool.false_eq_true, if_false, hd, if_true, hrange,
      EMU_EnterEM_compareMatch]
    exact (RTC_IRQHandler_spec _).1
  · intro hn hrange
    simp only [sleep, hn, if_true, hrange, EMU_EnterEM_compareMatch]
    exact (RTC_IRQHandler_spec _).1
  · intro hd hrange hcnt
    have hpro := rtcPrologue_frame cfg d s
    simp [delay, hc, hd, hrange, hpro.2.2.2.2.2 hcnt]
  · intro hn hrange hcnt
    have hpro := rtcPrologue_frame cfg n s
    simp [sleep, hn, hrange, hpro.2.2.2.2.2 hcnt]
  · intro hinit hclk hcnt
    have hdel0 : delay cfg ev fuel 0 s = s := by
      simp [delay, hc, rtcPrologue, hinit]
    have hslp0 : sleep cfg ev 0 s = s := by
      simp [sleep, rtcPrologue, hinit]
    exact ⟨by rw [hdel0, hclk], by rw [hdel0, hcnt],
      by rw [hslp0, hclk], by rw [hslp0, hcnt]⟩
  · intro hinit
    have hdel0 : delay cfg ev fuel 0 s = initRTC cfg s := by
      simp [delay, hc, rtcPrologue, hinit]
    have hslp0 : sleep cfg ev 0 s = initRTC cfg s := by
      simp [sleep, rtcPrologue, hinit]
    have hgate : (initRTC cfg s).rtcClockEnabled = true := by
      unfold initRTC
      split <;> rfl
    have hcnt2 : (initRTC cfg s).rtcCounterEnabled = false := by
      unfold initRTC
      split <;> rfl
    exact ⟨by rw [hdel0, hgate], by rw [hdel0, hcnt2],
      by rw [hslp0, hgate], by rw [hslp0, hcnt2]⟩

/-- C8 amended witness at a concrete input. -/
theorem C8_amended_witness :
    cfgULFRCO.systickdelay = false
    ∧ (0 : Nat) < 7
    ∧ sleepTicks cfgULFRCO 3 ≤ 0x00ffffff
    ∧ (delay cfgULFRCO (WakeEvent.external 5) 0 7 rtcReadyState).rtcClockEnabled = false
    ∧ (sleep cfgULFRCO WakeEvent.compareMatch 3 rtcReadyState).rtcCounterEnabled = false := by
  refine ⟨by decide, by decide, by decide, ?_, ?_⟩
  · exact (C8_amended cfgULFRCO (WakeEvent.external 5) 0 7 3 rtcReadyState
      (by decide)).1 (by decide)
  · exact (C8_amended cfgULFRCO (WakeEvent.external 5) 0 7 3 rtcReadyState
      (by decide)).2.2.2.1 (by decide) (by decide)

/-- C1: The compare-match handler stops the counter, clears the interrupt
source, and sets the wake flag if and only if `sleeping` is true when it
runs (its wake output is `sleeping || wake`); `sleep` sets `sleeping` to
true in the state entering the low-power wait and back to false after
resuming, while `delay` never sets it; hence the wake flag is set after
every `sleep n` with `n > 0` and in-range tick count that runs to natural
compare-match completion, and `delay` never changes the wake flag when
called with `sleeping` false. -/
theorem C1_wake_flag_protocol (cfg : Config) (ev : WakeEvent) (s : DelayState)
    (n d fuel : Nat) (hn : 0 < n)
    (hrange : sleepTicks cfg n ≤ 0x00ffffff)
    (hsl : s.sleeping = false) :
    (∀ t : DelayState,
        (RTC_IRQHandler t).rtcCounterEnabled = false
        ∧ (RTC_IRQHandler t).rtcIfComp0 = false
        ∧ (RTC_IRQHandler t).RTC_sleep_wakeup = (t.sleeping || t.RTC_sleep_wakeup))
    ∧ (sleepPreWait cfg n s).sleeping = true
    ∧ (sleep cfg WakeEvent.compareMatch n s).RTC_sleep_wakeup = true
    ∧ (sleep cfg ev n s).sleeping = false
    ∧ (delay cfg ev fuel d s).RTC_sleep_wakeup = s.RTC_sleep_wakeup
    ∧ (delay cfg ev fuel d s).sleeping = false := by
  refine ⟨?_, ?_, ?_, ?_, ?_, ?_⟩
  · intro t
    exact ⟨(RTC_IRQHandler_spec t).1, (RTC_IRQHandler_spec t).2.1,
      (RTC_IRQHandler_spec t).2.2.1⟩
  · rfl
  · simp [sleep, hn, hrange, EMU_EnterEM, RTC_IRQHandler, sleepPreWait]
  · simp [sleep, hn, hrange]
  · exact (delay_sleeping_wake_frame cfg ev fuel d s hsl).2
  · rw [(delay_sleeping_wake_frame cfg ev fuel d s hsl).1, hsl]

/-- C1 witness at a concrete input. -/
theorem C1_wake_flag_protocol_witness :
    0 < 5
    ∧ sleepTicks cfgLFXO 5 ≤ 0x00ffffff
    ∧ rtcReadyState.sleeping = false
    ∧ (sleep cfgLFXO WakeEvent.compareMatch 5 rtcReadyState).RTC_sleep_wakeup = true
    ∧ (delay cfgLFXO (WakeEvent.external 10) 0 2 rtcReadyState).RTC_sleep_wakeup
        = rtcReadyState.RTC_sleep_wakeup := by
  refine ⟨by decide, by decide, by decide, ?_, ?_⟩
  · exact (C1_wake_flag_protocol cfgLFXO (WakeEvent.external 10) rtcReadyState
      5 2 0 (by decide) (by decide) (by decide)).2.2.1
  · exact (C1_wake_flag_protocol cfgLFXO (WakeEvent.external 10) rtcReadyState
      5 2 0 (by decide) (by decide) (by decide)).2.2.2.2.1

/-- If the wake flag is true, `delay` leaves it true (the handler can only
raise it, never clear it). -/
theorem delay_wake_monotone (cfg : Config) (ev : WakeEvent) (fuel d : Nat)
    (s : DelayState) (h : s.RTC_sleep_wakeup = true) :
    (delay cfg ev fuel d s).RTC_sleep_wakeup = true := by
  have hpro := rtcPrologue_frame cfg d s
  have hsetup := delaySysTickSetup_frame d s
  have hpoll := busyPoll_preserves fuel (delaySysTickSetup d s).msTicks d
    (delaySysTickSetup d s)
  by_cases hc : cfg.systickdelay = true
  · by_cases hdpos : d > 0
    · simp only [delay, hc, if_true, hdpos]
      rw [hpoll.1, hsetup.2.1, h]
    · simp only [delay, hc, if_true, hdpos, if_false]
      rw [hsetup.2.1, h]
  · replace hc : cfg.systickdelay = false := by simpa using hc
    have hw : (rtcPrologue cfg d s).RTC_sleep_wakeup = true := by rw [hpro.2.1, h]
    by_cases hdpos : d > 0
    · by_cases hrange : delayInRange cfg d
      · cases ev with
        | compareMatch =>
            simp only [delay, hc, Bool.false_eq_true, if_false, hdpos, if_true,
              hrange, EMU_EnterEM_compareMatch]
            have := (RTC_IRQHandler_spec
              ({ { { rtcPrologue cfg d s with
                      rtcComp0 := delayCompareVal cfg d } with
                    rtcCounterEnabled := true } with
                  emWaits := (rtcPrologue cfg d s).emWaits + 1,
                  rtcCounter := delayCompareVal cfg d, rtcIfComp0 := true }))
            simp only [this.2.2.1]
            show ((rtcPrologue cfg d s).sleeping || (rtcPrologue cfg d s).RTC_sleep_wakeup) = true
            rw [hw, Bool.or_true]
        | external k =>
            simp [delay, hc, hdpos, hrange, EMU_EnterEM, hw]
      · simp [delay, hc, hdpos, hrange, hw]
    · simp only [delay, hc, Bool.false_eq_true, if_false, hdpos]
      exact hw

/-- If the wake flag is true, `sleep` leaves it true. -/
theorem sleep_wake_monotone (cfg : Config) (ev : WakeEvent) (n : Nat)
    (s : DelayState) (h : s.RTC_sleep_wakeup = true) :
    (sleep cfg ev n s).RTC_sleep_wakeup = true := by
  have hpro := rtcPrologue_frame cfg n s
  have hw : (rtcPrologue cfg n s).RTC_sleep_wakeup = true := by rw [hpro.2.1, h]
  by_cases hnpos : n > 0
  · by_cases hrange : sleepTicks cfg n ≤ 0x00ffffff
    · cases ev with
      | compareMatch =>
          simp [sleep, hnpos, hrange, EMU_EnterEM, RTC_IRQHandler, sleepPreWait]
      | external k =>
          simp [sleep, hnpos, hrange, EMU_EnterEM, sleepPreWait, hw]
    · simp [sleep, hnpos, hrange, hw]
  · simp only [sleep, hnpos, if_false]
    exact hw

/-- C6: `RTC_checkWakeup` returns the wake flag without modifying any
state; `RTC_clearWakeup` unconditionally sets it to false; the flag starts
false, and no other operation of this core (`delay`, `sleep`, the two
interrupt handlers, `RTC_getPassedSleeptime`, `initRTC`) ever turns a true
wake flag false; consequently `RTC_clearWakeup` followed immediately by
`RTC_checkWakeup` always yields false. -/
theorem C6_wake_accessors (cfg : Config) (ev : WakeEvent) (fuel d n : Nat)
    (s : DelayState) :
    (RTC_checkWakeup s).1 = s.RTC_sleep_wakeup
    ∧ (RTC_checkWakeup s).2 = s
    ∧ (RTC_clearWakeup s).RTC_sleep_wakeup = false
    ∧ initialState.RTC_sleep_wakeup = false
    ∧ (RTC_checkWakeup (RTC_clearWakeup s)).1 = false
    ∧ (s.RTC_sleep_wakeup = true →
        (delay cfg ev fuel d s).RTC_sleep_wakeup = true
        ∧ (sleep cfg ev n s).RTC_sleep_wakeup = true
        ∧ (RTC_IRQHandler s).RTC_sleep_wakeup = true
        ∧ (SysTick_Handler s).RTC_sleep_wakeup = true
        ∧ ((RTC_getPassedSleeptime cfg s).2).RTC_sleep_wakeup = true
        ∧ (initRTC cfg s).RTC_sleep_wakeup = true) := by
  refine ⟨rfl, rfl, rfl, rfl, rfl, ?_⟩
  intro h
  refine ⟨delay_wake_monotone cfg ev fuel d s h,
    sleep_wake_monotone cfg ev n s h, ?_, ?_, ?_, ?_⟩
  · rw [(RTC_IRQHandler_spec s).2.2.1, h, Bool.or_true]
  · exact h
  · exact h
  · unfold initRTC
    split <;> simpa using h

/-- C6 witness at a concrete input. -/
theorem C6_wake_accessors_witness :
    ({ rtcReadyState with RTC_sleep_wakeup := true } : DelayState).RTC_sleep_wakeup = true
    ∧ (RTC_checkWakeup (RTC_clearWakeup { rtcReadyState with RTC_sleep_wakeup := true })).1 = false
    ∧ (delay cfgULFRCO WakeEvent.compareMatch 0 4
        { rtcReadyState with RTC_sleep_wakeup := true }).RTC_sleep_wakeup = true := by
  refine ⟨by decide, ?_, ?_⟩
  · exact (C6_wake_accessors cfgULFRCO WakeEvent.compareMatch 0 4 2
      { rtcReadyState with RTC_sleep_wakeup := true }).2.2.2.2.1
  · exact ((C6_wake_accessors cfgULFRCO WakeEvent.compareMatch 0 4 2
      { rtcReadyState with RTC_sleep_wakeup := true }).2.2.2.2.2 (by decide)).1

/-- The oscillator frequency is positive. -/
theorem oscFreq_pos (cfg : Config) : 0 < oscFreq cfg := by
  unfold oscFreq ULFRCOFREQ LFXOFREQ
  split <;> omega

/-- C5 counterexample: the unqualified "after a sleep that ran to natural
completion the accessor returns a value ≥ the requested duration" is false:
with the ultra-low-frequency oscillator, `sleep(4294968)` is wrap-accepted
(its uint32 tick product is 704), runs to natural compare-match completion
(the wake flag is set), and `RTC_getPassedSleeptime` then returns
`704 / 1000 = 0`, which is smaller than the requested 4294968 seconds. -/
theorem C5_counterexample :
    (sleep cfgULFRCO WakeEvent.compareMatch 4294968 rtcReadyState).RTC_sleep_wakeup = true
    ∧ (RTC_getPassedSleeptime cfgULFRCO
        (sleep cfgULFRCO WakeEvent.compareMatch 4294968 rtcReadyState)).1 = 0
    ∧ (0 : Nat) < 4294968 := by
  refine ⟨by decide, by decide, by decide⟩

/-- C5 amended: `RTC_getPassedSleeptime` reads the hardware counter's
current tick count, disables the counter as a side effect, and returns the
tick count divided (truncating) by the active oscillator's frequency;
after a sleep that ran to natural compare-match completion AND whose tick
conversion did not wrap modulo `2^32` (mathematical product at most
16777215) it returns exactly the requested duration — hence a value
greater than or equal to it — and a second consecutive call returns the
same (non-increasing) value.  For a wrap-accepted sleep the returned value
can be far below the requested duration. -/
theorem C5_amended (cfg : Config) (s : DelayState) (n : Nat)
    (hn : 0 < n) (hfit : oscFreq cfg * n ≤ 0x00ffffff) :
    (∀ t : DelayState,
        (RTC_getPassedSleeptime cfg t).1 = t.rtcCounter / oscFreq cfg
        ∧ ((RTC_getPassedSleeptime cfg t).2).rtcCounterEnabled = false
        ∧ ((RTC_getPassedSleeptime cfg t).2).rtcCounter = t.rtcCounter)
    ∧ (RTC_getPassedSleeptime cfg (sleep cfg WakeEvent.compareMatch n s)).1 = n
    ∧ n ≤ (RTC_getPassedSleeptime cfg (sleep cfg WakeEvent.compareMatch n s)).1
    ∧ ((RTC_getPassedSleeptime cfg (sleep cfg WakeEvent.compareMatch n s)).2).rtcCounterEnabled = false
    ∧ (RTC_getPassedSleeptime cfg
        ((RTC_getPassedSleeptime cfg (sleep cfg WakeEvent.compareMatch n s)).2)).1
        = (RTC_getPassedSleeptime cfg (sleep cfg WakeEvent.compareMatch n s)).1 := by
  have hlt : oscFreq cfg * n < UINT32_MOD := by
    unfold UINT32_MOD
    omega
  have hticks : sleepTicks cfg n = oscFreq cfg * n := by
    unfold sleepTicks
    exact Nat.mod_eq_of_lt hlt
  have hrange : sleepTicks cfg n ≤ 0x00ffffff := by
    rw [hticks]
    exact hfit
  have hval : (RTC_getPassedSleeptime cfg (sleep cfg WakeEvent.compareMatch n s)).1 = n := by
    have hcnt : (sleep cfg WakeEvent.compareMatch n s).rtcCounter = sleepTicks cfg n := by
      simp [sleep, hn, hrange, EMU_EnterEM, RTC_IRQHandler, sleepPreWait]
    show (sleep cfg WakeEvent.compareMatch n s).rtcCounter / oscFreq cfg = n
    rw [hcnt, hticks]
    exact Nat.mul_div_cancel_left n (oscFreq_pos cfg)
  refine ⟨fun t => ⟨rfl, rfl, rfl⟩, hval, ?_, rfl, rfl⟩
  rw [hval]

/-- C5 amended witness at a concrete input (crystal oscillator, `sleep(5)`:
`RTC_getPassedSleeptime` returns exactly 5). -/
theorem C5_amended_witness :
    0 < 5
    ∧ oscFreq cfgLFXO * 5 ≤ 0x00ffffff
    ∧ (RTC_getPassedSleeptime cfgLFXO
        (sleep cfgLFXO WakeEvent.compareMatch 5 rtcReadyState)).1 = 5 := by
  refine ⟨by decide, by decide, ?_⟩
  exact (C5_amended cfgLFXO rtcReadyState 5 (by decide) (by decide)).2.1

/-- C7: For the continuous-tick (SysTick) back-end and every in-range
duration `d > 0`, `delay d` enables the tick interrupt and counter, records
the tick counter, busy-polls until the wraparound 32-bit tick delta reaches
`d` — the loop runs the tick handler exactly `d` times, so the call returns
only after at least `d` ticks have elapsed and the final tick count is the
recorded one plus `d` (mod `2^32`) — and then disables the tick interrupt
and counter. -/
theorem C7_systick_busywait (cfg : Config) (ev : WakeEvent) (fuel d : Nat)
    (s : DelayState)
    (hc : cfg.systickdelay = true)
    (hd : 0 < d) (hdm : d < UINT32_MOD) (hfuel : d ≤ fuel)
    (hms : s.msTicks < UINT32_MOD) :
    (delaySysTickSetup d s).sysTickInt = true
    ∧ (delaySysTickSetup d s).sysTickEnable = true
    ∧ (busyPoll fuel (delaySysTickSetup d s).msTicks d (delaySysTickSetup d s)).2 = d
    ∧ wrapSub32
        ((busyPoll fuel (delaySysTickSetup d s).msTicks d (delaySysTickSetup d s)).1).msTicks
        (delaySysTickSetup d s).msTicks = d
    ∧ (delay cfg ev fuel d s).msTicks = (s.msTicks + d) % UINT32_MOD
    ∧ (delay cfg ev fuel d s).sysTickInt = false
    ∧ (delay cfg ev fuel d s).sysTickEnable = false := by
  have hsetupms : (delaySysTickSetup d s).msTicks = s.msTicks :=
    (delaySysTickSetup_frame d s).2.2.1
  have hrun := busyPoll_run d hdm fuel 0 s.msTicks (delaySysTickSetup d s)
    hms (Nat.zero_le d) (by omega)
    (by rw [hsetupms, Nat.add_zero, Nat.mod_eq_of_lt hms])
  have hbits : (delaySysTickSetup d s).sysTickInt = true
      ∧ (delaySysTickSetup d s).sysTickEnable = true := by
    unfold delaySysTickSetup
    by_cases hi : s.SysTick_initialized = true <;> simp [hi, hd]
  refine ⟨hbits.1, hbits.2, ?_, ?_, ?_, ?_, ?_⟩
  · rw [hsetupms, hrun]
    show d - 0 = d
    omega
  · rw [hsetupms, hrun]
    exact wrapSub32_delta s.msTicks d hms hdm
  · simp only [delay, hc, if_true, hd, hsetupms, hrun]
  · simp only [delay, hc, if_true, hd, hsetupms, hrun]
  · simp only [delay, hc, if_true, hd, hsetupms, hrun]

/-- C7 witness at a concrete input. -/
theorem C7_systick_busywait_witness :
    cfgSysTick.systickdelay = true
    ∧ (0 : Nat) < 3 ∧ (3 : Nat) < UINT32_MOD ∧ (3 : Nat) ≤ 5
    ∧ initialState.msTicks < UINT32_MOD
    ∧ (busyPoll 5 (delaySysTickSetup 3 initialState).msTicks 3
        (delaySysTickSetup 3 initialState)).2 = 3
    ∧ (delay cfgSysTick WakeEvent.compareMatch 5 3 initialState).msTicks
        = (initialState.msTicks + 3) % UINT32_MOD
    ∧ (delay cfgSysTick WakeEvent.compareMatch 5 3 initialState).sysTickEnable = false := by
  refine ⟨by decide, by decide, by decide, by decide, by decide, ?_, ?_, ?_⟩
  · exact (C7_systick_busywait cfgSysTick WakeEvent.compareMatch 5 3 initialState
      (by decide) (by decide) (by decide) (by decide) (by decide)).2.2.1
  · exact (C7_systick_busywait cfgSysTick WakeEvent.compareMatch 5 3 initialState
      (by decide) (by decide) (by decide) (by decide) (by decide)).2.2.2.2.1
  · exact (C7_systick_busywait cfgSysTick WakeEvent.compareMatch 5 3 initialState
      (by decide) (by decide) (by decide) (by decide) (by decide)).2.2.2.2.2.2

/-- C4 counterexample: the claim "sleep accepts exactly the durations whose
product with the oscillator frequency is at most 16777215" is false,
because the source computes the product in uint32 arithmetic: with the
ultra-low-frequency oscillator, `sleep(4294968)` has mathematical product
`1000 * 4294968 = 4294968000 > 16777215`, yet the product wraps modulo
`2^32` to `704`, so the call passes the range check, programs the compare
register with `704`, enters the wait and even sets the wake flag. -/
theorem C4_counterexample :
    1000 * 4294968 > 0x00ffffff
    ∧ (sleep cfgULFRCO WakeEvent.compareMatch 4294968 rtcReadyState).rtcComp0 = 704
    ∧ (sleep cfgULFRCO WakeEvent.compareMatch 4294968 rtcReadyState).emWaits
        = rtcReadyState.emWaits + 1
    ∧ (sleep cfgULFRCO WakeEvent.compareMatch 4294968 rtcReadyState).RTC_sleep_wakeup
        = true := by
  refine ⟨by decide, by decide, by decide, by decide⟩

/-- C4 amended: `sleep(duration_s)` converts the duration to native ticks
as `duration_s` times the oscillator frequency (32768 crystal, 1000
ultra-low-frequency) computed in uint32 arithmetic, i.e. reduced modulo
`2^32`, and accepts exactly the durations whose reduced product is at most
16777215: an accepted call programs that value into the compare register
and enters the wait, a rejected call leaves the compare register and the
counter-enable bit untouched and enters no wait.  With the crystal,
`sleep(5)` programs `163840`; with the ultra-low-frequency source,
`sleep(16777)` yields `16777000` and is accepted while `sleep(16778)`
yields `16778000` and is rejected. -/
theorem C4_amended (cfg : Config) (s : DelayState) (n : Nat) (hn : 0 < n) :
    ((sleepTicks cfg n ≤ 0x00ffffff →
        (sleep cfg WakeEvent.compareMatch n s).rtcComp0 = sleepTicks cfg n
        ∧ (sleep cfg WakeEvent.compareMatch n s).emWaits = s.emWaits + 1)
      ∧ (0x00ffffff < sleepTicks cfg n →
        (sleep cfg WakeEvent.compareMatch n s).rtcComp0 = s.rtcComp0
        ∧ (sleep cfg WakeEvent.compareMatch n s).emWaits = s.emWaits
        ∧ (s.rtcCounterEnabled = false →
            (sleep cfg WakeEvent.compareMatch n s).rtcCounterEnabled = false)))
    ∧ sleepTicks cfgLFXO 5 = 163840
    ∧ sleepTicks cfgULFRCO 16777 = 16777000
    ∧ sleepTicks cfgULFRCO 16777 ≤ 0x00ffffff
    ∧ sleepTicks cfgULFRCO 16778 = 16778000
    ∧ 0x00ffffff < sleepTicks cfgULFRCO 16778 := by
  have hpro := rtcPrologue_frame cfg n s
  refine ⟨⟨?_, ?_⟩, by decide, by decide, by decide, by decide, by decide⟩
  · intro hrange
    constructor
    · simp only [sleep, hn, if_true, hrange, EMU_EnterEM_compareMatch]
      show (RTC_IRQHandler _).rtcComp0 = sleepTicks cfg n
      rw [(RTC_IRQHandler_spec _).2.2.2.2.1]
      rfl
    · simp only [sleep, hn, if_true, hrange, EMU_EnterEM_compareMatch]
      show (RTC_IRQHandler _).emWaits = s.emWaits + 1
      rw [(RTC_IRQHandler_spec _).2.2.2.2.2.2.2.1]
      show (rtcPrologue cfg n s).emWaits + 1 = s.emWaits + 1
      rw [hpro.2.2.2.2.1]
  · intro hover
    have hnot : ¬ sleepTicks cfg n ≤ 0x00ffffff := by omega
    refine ⟨?_, ?_, ?_⟩
    · simp [sleep, hn, hnot, hpro.2.2.1]
    · simp [sleep, hn, hnot, hpro.2.2.2.2.1]
    · intro hcnt
      simp [sleep, hn, hnot, hpro.2.2.2.2.2 hcnt]

/-- C4 amended witness at a concrete input. -/
theorem C4_amended_witness :
    (0 : Nat) < 5
    ∧ sleepTicks cfgLFXO 5 ≤ 0x00ffffff
    ∧ (sleep cfgLFXO WakeEvent.compareMatch 5 rtcReadyState).rtcComp0
        = sleepTicks cfgLFXO 5 := by
  refine ⟨by decide, by decide, ?_⟩
  exact ((C4_amended cfgLFXO rtcReadyState 5 (by decide)).1.1 (by decide)).1

/-- C3: `delay(0)` and `sleep(0)` are initialization-only calls: the first
zero-duration call per back-end performs the back-end's initialization and
sets its readiness flag true, every later zero-duration call is a complete
no-op (the state is returned unchanged), zero-duration calls compose
idempotently, and no zero-duration call ever programs the compare
register, enables the counter, advances the tick counter, or enters a
wait. -/
theorem C3_zero_init_only (cfg : Config) (ev : WakeEvent) (fuel : Nat)
    (s : DelayState) :
    (cfg.systickdelay = false → s.RTC_initialized = false →
        delay cfg ev fuel 0 s = initRTC cfg s
        ∧ sleep cfg ev 0 s = initRTC cfg s
        ∧ (initRTC cfg s).RTC_initialized = true)
    ∧ (cfg.systickdelay = true → s.SysTick_initialized = false →
        (delay cfg ev fuel 0 s).SysTick_initialized = true)
    ∧ (cfg.systickdelay = false → s.RTC_initialized = true →
        delay cfg ev fuel 0 s = s ∧ sleep cfg ev 0 s = s)
    ∧ (cfg.systickdelay = true → s.SysTick_initialized = true →
        delay cfg ev fuel 0 s = s)
    ∧ delay cfg ev fuel 0 (delay cfg ev fuel 0 s) = delay cfg ev fuel 0 s
    ∧ sleep cfg ev 0 (sleep cfg ev 0 s) = sleep cfg ev 0 s
    ∧ (delay cfg ev fuel 0 s).rtcComp0 = s.rtcComp0
    ∧ (delay cfg ev fuel 0 s).emWaits = s.emWaits
    ∧ (delay cfg ev fuel 0 s).msTicks = s.msTicks
    ∧ (s.rtcCounterEnabled = false →
        (delay cfg ev fuel 0 s).rtcCounterEnabled = false)
    ∧ (sleep cfg ev 0 s).rtcComp0 = s.rtcComp0
    ∧ (sleep cfg ev 0 s).emWaits = s.emWaits
    ∧ (s.rtcCounterEnabled = false →
        (sleep cfg ev 0 s).rtcCounterEnabled = false) := by
  have hsleep0 : ∀ t : DelayState, sleep cfg ev 0 t = rtcPrologue cfg 0 t := by
    intro t
    simp [sleep]
  have hdelayR : cfg.systickdelay = false →
      ∀ t : DelayState, delay cfg ev fuel 0 t = rtcPrologue cfg 0 t := by
    intro hc t
    simp [delay, hc]
  have hdelayS : cfg.systickdelay = true →
      ∀ t : DelayState, delay cfg ev fuel 0 t = delaySysTickSetup 0 t := by
    intro hc t
    simp [delay, hc]
  have hproNot : ∀ t : DelayState, t.RTC_initialized = false →
      rtcPrologue cfg 0 t = initRTC cfg t := by
    intro t ht
    simp [rtcPrologue, ht]
  have hproYes : ∀ t : DelayState, t.RTC_initialized = true →
      rtcPrologue cfg 0 t = t := by
    intro t ht
    simp [rtcPrologue, ht]
  have hinitFlag : ∀ t : DelayState, (initRTC cfg t).RTC_initialized = true := by
    intro t
    unfold initRTC
    split <;> rfl
  have hsetNot : ∀ t : DelayState, t.SysTick_initialized = false →
      delaySysTickSetup 0 t
        = { t with sysTickInt := true, sysTickEnable := true,
                   SysTick_initialized := true } := by
    intro t ht
    simp [delaySysTickSetup, ht]
  have hsetYes : ∀ t : DelayState, t.SysTick_initialized = true →
      delaySysTickSetup 0 t = t := by
    intro t ht
    simp [delaySysTickSetup, ht]
  have hpro2 : rtcPrologue cfg 0 (rtcPrologue cfg 0 s) = rtcPrologue cfg 0 s := by
    by_cases hi : s.RTC_initialized = true
    · rw [hproYes s hi, hproYes s hi]
    · replace hi : s.RTC_initialized = false := by simpa using hi
      rw [hproNot s hi, hproYes _ (hinitFlag s)]
  have hset2 : delaySysTickSetup 0 (delaySysTickSetup 0 s) = delaySysTickSetup 0 s := by
    by_cases hi : s.SysTick_initialized = true
    · rw [hsetYes s hi, hsetYes s hi]
    · replace hi : s.SysTick_initialized = false := by simpa using hi
      rw [hsetNot s hi]
      exact hsetYes _ rfl
  refine ⟨?_, ?_, ?_, ?_, ?_, ?_, ?_, ?_, ?_, ?_, ?_, ?_, ?_⟩
  · intro hc hf
    exact ⟨by rw [hdelayR hc s, hproNot s hf],
      by rw [hsleep0 s, hproNot s hf], hinitFlag s⟩
  · intro hc hf
    rw [hdelayS hc s, hsetNot s hf]
  · intro hc hf
    exact ⟨by rw [hdelayR hc s, hproYes s hf], by rw [hsleep0 s, hproYes s hf]⟩
  · intro hc hf
    rw [hdelayS hc s, hsetYes s hf]
  · by_cases hc : cfg.systickdelay = true
    · rw [hdelayS hc s, hdelayS hc (delaySysTickSetup 0 s)]
      exact hset2
    · replace hc : cfg.systickdelay = false := by simpa using hc
      rw [hdelayR hc s, hdelayR hc (rtcPrologue cfg 0 s)]
      exact hpro2
  · rw [hsleep0 s, hsleep0 (rtcPrologue cfg 0 s)]
    exact hpro2
  · by_cases hc : cfg.systickdelay = true
    · rw [hdelayS hc s]
      exact (delaySysTickSetup_frame 0 s).2.2.2.1
    · replace hc : cfg.systickdelay = false := by simpa using hc
      rw [hdelayR hc s]
      exact (rtcPrologue_frame cfg 0 s).2.2.1
  · by_cases hc : cfg.systickdelay = true
    · rw [hdelayS hc s]
      exact (delaySysTickSetup_frame 0 s).2.2.2.2.2.2
    · replace hc : cfg.systickdelay = false := by simpa using hc
      rw [hdelayR hc s]
      exact (rtcPrologue_frame cfg 0 s).2.2.2.2.1
  · by_cases hc : cfg.systickdelay = true
    · rw [hdelayS hc s]
      exact (delaySysTickSetup_frame 0 s).2.2.1
    · replace hc : cfg.systickdelay = false := by simpa using hc
      rw [hdelayR hc s]
      exact (rtcPrologue_frame cfg 0 s).2.2.2.1
  · intro h
    by_cases hc : cfg.systickdelay = true
    · rw [hdelayS hc s, (delaySysTickSetup_frame 0 s).2.2.2.2.1, h]
    · replace hc : cfg.systickdelay = false := by simpa using hc
      rw [hdelayR hc s]
      exact (rtcPrologue_frame cfg 0 s).2.2.2.2.2 h
  · rw [hsleep0 s]
    exact (rtcPrologue_frame cfg 0 s).2.2.1
  · rw [hsleep0 s]
    exact (rtcPrologue_frame cfg 0 s).2.2.2.2.1
  · intro h
    rw [hsleep0 s]
    exact (rtcPrologue_frame cfg 0 s).2.2.2.2.2 h

/-- C3 witness at a concrete input. -/
theorem C3_zero_init_only_witness :
    cfgULFRCO.systickdelay = false
    ∧ initialState.RTC_initialized = false
    ∧ delay cfgULFRCO WakeEvent.compareMatch 0 0 initialState
        = initRTC cfgULFRCO initialState
    ∧ sleep cfgULFRCO WakeEvent.compareMatch 0
        (sleep cfgULFRCO WakeEvent.compareMatch 0 initialState)
        = sleep cfgULFRCO WakeEvent.compareMatch 0 initialState := by
  refine ⟨by decide, by decide, ?_, ?_⟩
  · exact ((C3_zero_init_only cfgULFRCO WakeEvent.compareMatch 0 initialState).1
      (by decide) (by decide)).1
  · exact (C3_zero_init_only cfgULFRCO WakeEvent.compareMatch 0
      initialState).2.2.2.2.2.1
